import Mathlib

/-!
# Deployment manifest builder of the machine-remediation operator

A shallow embedding of `pkg/operator/components/deployments.go`:
`getImage`, `newContainers`, `newPodTemplateSpec` and `NewDeployment`,
together with the part of the Kubernetes API types they populate.

Conventions of the embedding

* Go `string` (and the string-based types `PullPolicy`, `TaintEffect`,
  `TolerationOperator`, `ResourceName`) is `String`.
* Go `map[K]V` literals are association lists `List (K × V)`, entries in the
  order of the literal, read through `GoMap.get`.
* Go pointers to scalars and structs (`*int32`, `*int64`, `*bool`,
  `*LabelSelector`, `*PodSecurityContext`) are `Option`.
* `resource.MustParse` panics on a malformed literal, so it is an `Option`
  and the builders that call it return `Option`.
* `consts.LabelKubeVirt` is declared in package `consts`, outside the file
  embedded here; it is a parameter of the two builders that use it.
-/

namespace Components

/-! ## fmt.Sprintf on string operands -/

/-- Rendering of operands that the format string did not consume, as
`fmt` prints them: `string=a, string=b`. -/
def extraOperands : List String → List Char
  | [] => []
  | [a] => "string=".toList ++ a.toList
  | a :: b :: rest => "string=".toList ++ a.toList ++ ", ".toList ++ extraOperands (b :: rest)

/-- Interpreter for `fmt.Sprintf` restricted to string operands.  The verbs
`%s` and `%v` print the next operand unchanged, `%%` prints a percent sign,
a verb without operand prints `%!c(MISSING)`, a lone trailing `%` prints
`%!(NOVERB)`, any other verb prints `%!c(string=operand)`, and operands
left over are reported in a trailing `%!(EXTRA ...)`.  Flags, widths and
the other verbs that are meaningful on strings (`%q`, `%x`, ...) do not
occur in the embedded program and are not interpreted. -/
def sprintfAux : List Char → List String → List Char
  | [], [] => []
  | [], a :: rest => "%!(EXTRA ".toList ++ extraOperands (a :: rest) ++ [')']
  | ['%'], [] => "%!(NOVERB)".toList
  | ['%'], a :: rest => "%!(NOVERB)%!(EXTRA ".toList ++ extraOperands (a :: rest) ++ [')']
  | '%' :: '%' :: fmt, args => '%' :: sprintfAux fmt args
  | '%' :: c :: fmt, [] => "%!".toList ++ [c] ++ "(MISSING)".toList ++ sprintfAux fmt []
  | '%' :: c :: fmt, a :: rest =>
    if c = 's' ∨ c = 'v' then a.toList ++ sprintfAux fmt rest
    else "%!".toList ++ [c] ++ "(string=".toList ++ a.toList ++ [')'] ++ sprintfAux fmt rest
  | c :: fmt, args => c :: sprintfAux fmt args

/-- The Go call `fmt.Sprintf(format, args...)` with string operands. -/
def Sprintf (format : String) (args : List String) : String :=
  String.mk (sprintfAux format.toList args)

/-! ## The image reference -/

/-- Source: `getImage`, `fmt.Sprintf("%s/%s:%s", imageRepository, name, imageTag)`. -/
def getImage (name : String) (imageRepository : String) (imageTag : String) : String :=
  Sprintf "%s/%s:%s" [imageRepository, name, imageTag]

/-! ## Go maps -/

/-- Lookup in a Go map literal kept as an association list. -/
def GoMap.get {K V : Type} [DecidableEq K] : List (K × V) → K → Option V
  | [], _ => none
  | (k, v) :: rest, key => if k = key then some v else GoMap.get rest key

/-! ## resource.Quantity -/

/-- The three ways of writing a quantity (`resource.Format`). -/
inductive Format where
  | DecimalExponent
  | BinarySI
  | DecimalSI
  deriving DecidableEq, Repr

/-- A quantity is the number `value * 10 ^ scale` together with the form
it was written in (the `int64Amount` and `Format` of `resource.Quantity`). -/
structure Quantity where
  value : Int
  scale : Int
  Format : Format
  deriving DecidableEq, Repr

/-- Decimal digits read as a natural number, most significant digit first. -/
def digitsToNat (ds : List Char) : Nat :=
  ds.foldl (fun acc c => acc * 10 + (c.toNat - 48)) 0

/-- A signed decimal integer, as it follows `e` or `E` in the exponent form. -/
def parseSignedInt : List Char → Option Int
  | '+' :: ds => if ds ≠ [] ∧ ds.all Char.isDigit then some (digitsToNat ds) else none
  | '-' :: ds => if ds ≠ [] ∧ ds.all Char.isDigit then some (-(digitsToNat ds : Int)) else none
  | ds => if ds ≠ [] ∧ ds.all Char.isDigit then some (digitsToNat ds) else none

/-- The suffix of a quantity: the base, the exponent and the written form.
Binary suffixes are powers of 1024, decimal suffixes powers of 1000, and
`e<n>` / `E<n>` is a power of ten. -/
def interpretSuffix (suf : List Char) : Option (Nat × Int × Format) :=
  match suf with
  | [] => some (10, 0, Format.DecimalSI)
  | ['K', 'i'] => some (2, 10, Format.BinarySI)
  | ['M', 'i'] => some (2, 20, Format.BinarySI)
  | ['G', 'i'] => some (2, 30, Format.BinarySI)
  | ['T', 'i'] => some (2, 40, Format.BinarySI)
  | ['P', 'i'] => some (2, 50, Format.BinarySI)
  | ['E', 'i'] => some (2, 60, Format.BinarySI)
  | ['n'] => some (10, -9, Format.DecimalSI)
  | ['u'] => some (10, -6, Format.DecimalSI)
  | ['m'] => some (10, -3, Format.DecimalSI)
  | ['k'] => some (10, 3, Format.DecimalSI)
  | ['M'] => some (10, 6, Format.DecimalSI)
  | ['G'] => some (10, 9, Format.DecimalSI)
  | ['T'] => some (10, 12, Format.DecimalSI)
  | ['P'] => some (10, 15, Format.DecimalSI)
  | ['E'] => some (10, 18, Format.DecimalSI)
  | 'e' :: rest => (parseSignedInt rest).map (fun n => (10, n, Format.DecimalExponent))
  | 'E' :: rest => (parseSignedInt rest).map (fun n => (10, n, Format.DecimalExponent))
  | _ => none

/-- Modelled from the spec: `resource.ParseQuantity` of the Kubernetes API
machinery, which the builder calls through `resource.MustParse` and which
lies outside the file embedded here.  The spec fixes the two literals the builder
parses (a memory request of 20 Mi and a CPU request of 10 m) and names a
malformed literal as the only way construction can fail.  The model follows
the quantity grammar `<sign>? <digits> (. <digits>)? <suffix>`: the result is
the exact number written, `none` is the parse error.  Rounding of values finer
than a nano unit and the canonical re-rendering of the string are left out. -/
def ParseQuantity (str : String) : Option Quantity :=
  let cs := str.toList
  let (negative, body) : Bool × List Char :=
    match cs with
    | '-' :: rest => (true, rest)
    | '+' :: rest => (false, rest)
    | _ => (false, cs)
  let num := body.takeWhile Char.isDigit
  let afterNum := body.dropWhile Char.isDigit
  let (denom, suf) : List Char × List Char :=
    match afterNum with
    | '.' :: rest => (rest.takeWhile Char.isDigit, rest.dropWhile Char.isDigit)
    | _ => ([], afterNum)
  if num = [] ∧ denom = [] then none
  else
    match interpretSuffix suf with
    | none => none
    | some (base, exponent, format) =>
      let mantissa : Int := digitsToNat (num ++ denom)
      let signed : Int := if negative then -mantissa else mantissa
      if base = 2 then
        some { value := signed * 2 ^ exponent.toNat, scale := -(denom.length : Int), Format := format }
      else
        some { value := signed, scale := exponent - (denom.length : Int), Format := format }

/-- The Go call `resource.MustParse(str)`: the parsed quantity, or a panic
(`none`) when the literal is malformed. -/
def MustParse (str : String) : Option Quantity :=
  ParseQuantity str

/-- The number `q / 10 ^ s` rounded up to an integer (`Quantity.ScaledValue`). -/
def Quantity.ScaledValue (q : Quantity) (s : Int) : Int :=
  if s ≤ q.scale then q.value * 10 ^ (q.scale - s).toNat
  else -((-q.value) / 10 ^ (s - q.scale).toNat)

/-- The quantity in whole units, rounded up (`Quantity.Value`). -/
def Quantity.Value (q : Quantity) : Int :=
  q.ScaledValue 0

/-- The quantity in thousandths of a unit, rounded up (`Quantity.MilliValue`). -/
def Quantity.MilliValue (q : Quantity) : Int :=
  q.ScaledValue (-3)

/-! ## The API types the builder populates

Only the fields the builder sets, and the neighbouring fields whose absence
is part of its contract, are kept; a field left out of a Go struct literal
takes its zero value, which is the default value of the field here. -/

/-- Go type `corev1.PullPolicy`, a string. -/
abbrev PullPolicy := String
/-- Go type `corev1.TaintEffect`, a string. -/
abbrev TaintEffect := String
/-- Go type `corev1.TolerationOperator`, a string. -/
abbrev TolerationOperator := String
/-- Go type `corev1.ResourceName`, a string. -/
abbrev ResourceName := String
/-- Go type `corev1.ResourceList`, a map from resource names to quantities. -/
abbrev ResourceList := List (ResourceName × Quantity)

def PullAlways : PullPolicy := "Always"
def PullNever : PullPolicy := "Never"
def PullIfNotPresent : PullPolicy := "IfNotPresent"
def TaintEffectNoSchedule : TaintEffect := "NoSchedule"
def TaintEffectNoExecute : TaintEffect := "NoExecute"
def TolerationOpExists : TolerationOperator := "Exists"
def TolerationOpEqual : TolerationOperator := "Equal"
def ResourceCPU : ResourceName := "cpu"
def ResourceMemory : ResourceName := "memory"

/-- Source: the package constant `namespaceOpenshiftMachineAPI`. -/
def namespaceOpenshiftMachineAPI : String := "openshift-machine-api"

structure TypeMeta where
  Kind : String := ""
  APIVersion : String := ""
  deriving DecidableEq, Repr

structure ObjectMeta where
  Name : String := ""
  Namespace : String := ""
  Labels : List (String × String) := []
  deriving DecidableEq, Repr

structure LabelSelector where
  MatchLabels : List (String × String) := []
  deriving DecidableEq, Repr

structure ResourceRequirements where
  Limits : ResourceList := []
  Requests : ResourceList := []
  deriving DecidableEq, Repr

structure EnvVar where
  Name : String := ""
  Value : String := ""
  deriving DecidableEq, Repr

structure ContainerPort where
  Name : String := ""
  Protocol : String := ""
  HostIP : String := ""
  deriving DecidableEq, Repr

structure VolumeMount where
  Name : String := ""
  MountPath : String := ""
  deriving DecidableEq, Repr

structure Container where
  Name : String := ""
  Image : String := ""
  Command : List String := []
  Args : List String := []
  Ports : List ContainerPort := []
  Env : List EnvVar := []
  Resources : ResourceRequirements := {}
  VolumeMounts : List VolumeMount := []
  ImagePullPolicy : PullPolicy := ""
  deriving DecidableEq, Repr

structure Toleration where
  Key : String := ""
  Operator : TolerationOperator := ""
  Value : String := ""
  Effect : TaintEffect := ""
  TolerationSeconds : Option Int := none
  deriving DecidableEq, Repr

structure PodSecurityContext where
  RunAsNonRoot : Option Bool := none
  deriving DecidableEq, Repr

structure PodSpec where
  Containers : List Container := []
  NodeSelector : List (String × String) := []
  ServiceAccountName : String := ""
  SecurityContext : Option PodSecurityContext := none
  Tolerations : List Toleration := []
  deriving DecidableEq, Repr

structure PodTemplateSpec where
  ObjectMeta : ObjectMeta := {}
  Spec : PodSpec := {}
  deriving DecidableEq, Repr

structure DeploymentSpec where
  Replicas : Option Int := none
  Selector : Option LabelSelector := none
  Template : PodTemplateSpec := {}
  deriving DecidableEq, Repr

structure Deployment where
  TypeMeta : TypeMeta := {}
  ObjectMeta : ObjectMeta := {}
  Spec : DeploymentSpec := {}
  deriving DecidableEq, Repr

/-! ## The builders

The Go parameter `namespace` is written `ns`. -/

/-- Source: `newContainers`.  The two `resource.MustParse` calls of the
`Requests` literal run first and may panic; everything after them is a
struct literal. -/
def newContainers (name : String) (ns : String) (imageRepository : String) (imageTag : String)
    (pullPolicy : PullPolicy) (verbosity : String) : Option (List Container) := do
  let memory ← MustParse "20Mi"
  let cpu ← MustParse "10m"
  let resources : ResourceRequirements :=
    { Requests := [(ResourceMemory, memory), (ResourceCPU, cpu)] }
  let args : List String :=
    [ "--logtostderr=true",
      Sprintf "--v=%s" [verbosity],
      Sprintf "--namespace=%s" [ns] ]
  let containers : List Container :=
    [ { Name := name,
        Image := getImage name imageRepository imageTag,
        Command := [Sprintf "/usr/bin/%s" [name]],
        Args := args,
        Resources := resources,
        ImagePullPolicy := pullPolicy } ]
  return containers

/-- Source: `newPodTemplateSpec`. -/
def newPodTemplateSpec (LabelKubeVirt : String) (name : String) (ns : String)
    (imageRepository : String) (imageTag : String) (pullPolicy : PullPolicy)
    (verbosity : String) : Option PodTemplateSpec := do
  let containers ← newContainers name ns imageRepository imageTag pullPolicy verbosity
  let tolerations : List Toleration :=
    [ { Key := "node-role.kubernetes.io/master",
        Effect := TaintEffectNoSchedule },
      { Key := "CriticalAddonsOnly",
        Operator := TolerationOpExists },
      { Key := "node.kubernetes.io/not-ready",
        Effect := TaintEffectNoExecute,
        Operator := TolerationOpExists,
        TolerationSeconds := some 120 },
      { Key := "node.kubernetes.io/unreachable",
        Effect := TaintEffectNoExecute,
        Operator := TolerationOpExists,
        TolerationSeconds := some 120 } ]
  return {
    ObjectMeta := { Labels := [(LabelKubeVirt, name)] },
    Spec :=
      { Containers := containers,
        NodeSelector := [("node-role.kubernetes.io/master", "")],
        SecurityContext := some { RunAsNonRoot := some true },
        ServiceAccountName := name,
        Tolerations := tolerations } }

/-- Source: `NewDeployment`. -/
def NewDeployment (LabelKubeVirt : String) (name : String) (ns : String)
    (imageRepository : String) (imageTag : String) (pullPolicy : PullPolicy)
    (verbosity : String) : Option Deployment := do
  let template ← newPodTemplateSpec LabelKubeVirt name ns imageRepository imageTag pullPolicy verbosity
  return {
    TypeMeta := { APIVersion := "apps/v1", Kind := "Deployment" },
    ObjectMeta :=
      { Name := name,
        Namespace := ns,
        Labels := [(LabelKubeVirt, name)] },
    Spec :=
      { Replicas := some 1,
        Selector := some { MatchLabels := [(LabelKubeVirt, name)] },
        Template := template } }

/-! ## Taints and the toleration-matching rule -/

/-- Go type `corev1.Taint`: the node-side mark a toleration is matched against. -/
structure Taint where
  Key : String := ""
  Value : String := ""
  Effect : TaintEffect := ""
  deriving DecidableEq, Repr

/-- The toleration-matching rule of the Kubernetes scheduler, the property
the placement claim is measured against: an unset operator means `Equal`; a
toleration matches a taint when the keys are equal, the effects are equal or
the toleration's effect is empty, and the operator is `Exists` or the values
are equal.  Values are compared under `Equal` only, so an operator that is
neither `Exists` nor `Equal` matches no taint. -/
def toleratesTaint (t : Toleration) (taint : Taint) : Bool :=
  let operator : TolerationOperator := if t.Operator = "" then TolerationOpEqual else t.Operator
  decide (t.Key = taint.Key)
    && (decide (t.Effect = taint.Effect) || decide (t.Effect = ""))
    && (decide (operator = TolerationOpExists)
        || (decide (operator = TolerationOpEqual) && decide (t.Value = taint.Value)))

/-- A toleration list tolerates a taint when one of its entries matches it. -/
def tolerationsTolerateTaint (ts : List Toleration) (taint : Taint) : Bool :=
  ts.any (fun t => toleratesTaint t taint)

/-! ## Closed forms of the builders -/

theorem Sprintf_image (a b c : String) :
    Sprintf "%s/%s:%s" [a, b, c] = a ++ "/" ++ b ++ ":" ++ c := by
  apply String.ext
  simp [Sprintf, sprintfAux]

theorem Sprintf_verbosity (v : String) : Sprintf "--v=%s" [v] = "--v=" ++ v := by
  apply String.ext
  simp [Sprintf, sprintfAux]

theorem Sprintf_namespace (ns : String) : Sprintf "--namespace=%s" [ns] = "--namespace=" ++ ns := by
  apply String.ext
  simp [Sprintf, sprintfAux]

theorem Sprintf_command (name : String) : Sprintf "/usr/bin/%s" [name] = "/usr/bin/" ++ name := by
  apply String.ext
  simp [Sprintf, sprintfAux]

theorem MustParse_memory :
    MustParse "20Mi" = some { value := 20971520, scale := 0, Format := Format.BinarySI } := by
  decide

theorem MustParse_cpu :
    MustParse "10m" = some { value := 10, scale := -3, Format := Format.DecimalSI } := by
  decide

theorem newContainers_eq (name ns imageRepository imageTag : String) (pullPolicy : PullPolicy)
    (verbosity : String) :
    newContainers name ns imageRepository imageTag pullPolicy verbosity
      = some
          [ { Name := name,
              Image := imageRepository ++ "/" ++ name ++ ":" ++ imageTag,
              Command := ["/usr/bin/" ++ name],
              Args := ["--logtostderr=true", "--v=" ++ verbosity, "--namespace=" ++ ns],
              Resources :=
                { Requests :=
                    [ ("memory", { value := 20971520, scale := 0, Format := Format.BinarySI }),
                      ("cpu", { value := 10, scale := -3, Format := Format.DecimalSI }) ] },
              ImagePullPolicy := pullPolicy } ] := by
  simp [newContainers, getImage, Sprintf_image, Sprintf_verbosity, Sprintf_namespace,
    Sprintf_command, MustParse_memory, MustParse_cpu, ResourceMemory, ResourceCPU]

theorem newPodTemplateSpec_eq (LabelKubeVirt name ns imageRepository imageTag : String)
    (pullPolicy : PullPolicy) (verbosity : String) :
    newPodTemplateSpec LabelKubeVirt name ns imageRepository imageTag pullPolicy verbosity
      = some
          { ObjectMeta := { Labels := [(LabelKubeVirt, name)] },
            Spec :=
              { Containers :=
                  [ { Name := name,
                      Image := imageRepository ++ "/" ++ name ++ ":" ++ imageTag,
                      Command := ["/usr/bin/" ++ name],
                      Args := ["--logtostderr=true", "--v=" ++ verbosity, "--namespace=" ++ ns],
                      Resources :=
                        { Requests :=
                            [ ("memory",
                                { value := 20971520, scale := 0, Format := Format.BinarySI }),
                              ("cpu", { value := 10, scale := -3, Format := Format.DecimalSI }) ] },
                      ImagePullPolicy := pullPolicy } ],
                NodeSelector := [("node-role.kubernetes.io/master", "")],
                SecurityContext := some { RunAsNonRoot := some true },
                ServiceAccountName := name,
                Tolerations :=
                  [ { Key := "node-role.kubernetes.io/master", Effect := "NoSchedule" },
                    { Key := "CriticalAddonsOnly", Operator := "Exists" },
                    { Key := "node.kubernetes.io/not-ready", Effect := "NoExecute",
                      Operator := "Exists", TolerationSeconds := some 120 },
                    { Key := "node.kubernetes.io/unreachable", Effect := "NoExecute",
                      Operator := "Exists", TolerationSeconds := some 120 } ] } } := by
  simp [newPodTemplateSpec, newContainers_eq, TaintEffectNoSchedule, TaintEffectNoExecute,
    TolerationOpExists]

theorem NewDeployment_eq (LabelKubeVirt name ns imageRepository imageTag : String)
    (pullPolicy : PullPolicy) (verbosity : String) :
    NewDeployment LabelKubeVirt name ns imageRepository imageTag pullPolicy verbosity
      = some
          { TypeMeta := { APIVersion := "apps/v1", Kind := "Deployment" },
            ObjectMeta := { Name := name, Namespace := ns, Labels := [(LabelKubeVirt, name)] },
            Spec :=
              { Replicas := some 1,
                Selector := some { MatchLabels := [(LabelKubeVirt, name)] },
                Template :=
                  { ObjectMeta := { Labels := [(LabelKubeVirt, name)] },
                    Spec :=
                      { Containers :=
                          [ { Name := name,
                              Image := imageRepository ++ "/" ++ name ++ ":" ++ imageTag,
                              Command := ["/usr/bin/" ++ name],
                              Args :=
                                ["--logtostderr=true", "--v=" ++ verbosity,
                                  "--namespace=" ++ ns],
                              Resources :=
                                { Requests :=
                                    [ ("memory",
                                        { value := 20971520, scale := 0,
                                          Format := Format.BinarySI }),
                                      ("cpu",
                                        { value := 10, scale := -3,
                                          Format := Format.DecimalSI }) ] },
                              ImagePullPolicy := pullPolicy } ],
                        NodeSelector := [("node-role.kubernetes.io/master", "")],
                        SecurityContext := some { RunAsNonRoot := some true },
                        ServiceAccountName := name,
                        Tolerations :=
                          [ { Key := "node-role.kubernetes.io/master", Effect := "NoSchedule" },
                            { Key := "CriticalAddonsOnly", Operator := "Exists" },
                            { Key := "node.kubernetes.io/not-ready", Effect := "NoExecute",
                              Operator := "Exists", TolerationSeconds := some 120 },
                            { Key := "node.kubernetes.io/unreachable", Effect := "NoExecute",
                              Operator := "Exists", TolerationSeconds := some 120 } ] } } } } := by
  simp [NewDeployment, newPodTemplateSpec_eq]

/-! ## Cancellation and splitting of strings -/

theorem String_append_left_cancel (a b c : String) : a ++ b = a ++ c ↔ b = c := by
  constructor
  · intro h
    have h2 := congrArg String.data h
    simp only [String.data_append] at h2
    exact String.ext (List.append_cancel_left h2)
  · intro h
    rw [h]

theorem String_append_right_cancel (a b c : String) : a ++ c = b ++ c ↔ a = b := by
  constructor
  · intro h
    have h2 := congrArg String.data h
    simp only [String.data_append] at h2
    exact String.ext (List.append_cancel_right h2)
  · intro h
    rw [h]

/-- Two lists cut at the first occurrence of a separator agree piecewise. -/
theorem split_at_first_separator {s : Char} :
    ∀ (x x2 y y2 : List Char), s ∉ x → s ∉ x2 → x ++ s :: y = x2 ++ s :: y2 → x = x2 ∧ y = y2
  | [], [], _, _, _, _, h => by
    simp only [List.nil_append, List.cons.injEq, true_and] at h
    exact ⟨rfl, h⟩
  | [], b :: x2, _, _, _, h2, h => by
    simp only [List.nil_append, List.cons_append, List.cons.injEq] at h
    exact absurd (h.1 ▸ List.mem_cons_self _ _) h2
  | a :: x, [], _, _, h1, _, h => by
    simp only [List.nil_append, List.cons_append, List.cons.injEq] at h
    exact absurd (h.1 ▸ List.mem_cons_self _ _) h1
  | a :: x, b :: x2, y, y2, h1, h2, h => by
    simp only [List.cons_append, List.cons.injEq] at h
    have ih := split_at_first_separator x x2 y y2
      (fun hm => h1 (List.mem_cons_of_mem _ hm)) (fun hm => h2 (List.mem_cons_of_mem _ hm)) h.2
    exact ⟨by rw [h.1, ih.1], ih.2⟩

/-- Two lists cut at the last occurrence of a separator agree piecewise. -/
theorem split_at_last_separator {s : Char} (x x2 y y2 : List Char) (h1 : s ∉ y) (h2 : s ∉ y2)
    (h : x ++ s :: y = x2 ++ s :: y2) : x = x2 ∧ y = y2 := by
  have hr := congrArg List.reverse h
  simp only [List.reverse_append, List.reverse_cons, List.append_assoc, List.singleton_append]
    at hr
  have := split_at_first_separator y.reverse y2.reverse x.reverse x2.reverse
    (by simpa using h1) (by simpa using h2) hr
  exact ⟨List.reverse_injective this.2, List.reverse_injective this.1⟩

/-! ## Identity, selector and image -/

/-- C1, identity propagation: for non-empty `name` and `namespace` and any
repository, tag, pull policy and verbosity, `NewDeployment` returns a manifest
whose object name is `name`, whose object namespace is `namespace`, whose
object label and pod-template label under `LabelKubeVirt` are `name`, whose
service-account name is `name`, and whose single container has name `name`
and command `["/usr/bin/" ++ name]`. -/
theorem NewDeployment_identity_propagation (LabelKubeVirt name ns imageRepository imageTag : String)
    (pullPolicy : PullPolicy) (verbosity : String) (_hname : name ≠ "") (_hns : ns ≠ "") :
    ∃ d c, NewDeployment LabelKubeVirt name ns imageRepository imageTag pullPolicy verbosity = some d
      ∧ d.Spec.Template.Spec.Containers = [c]
      ∧ d.ObjectMeta.Name = name
      ∧ d.ObjectMeta.Namespace = ns
      ∧ GoMap.get d.ObjectMeta.Labels LabelKubeVirt = some name
      ∧ GoMap.get d.Spec.Template.ObjectMeta.Labels LabelKubeVirt = some name
      ∧ d.Spec.Template.Spec.ServiceAccountName = name
      ∧ c.Name = name
      ∧ c.Command = ["/usr/bin/" ++ name] := by
  refine ⟨_, _, NewDeployment_eq _ _ _ _ _ _ _, rfl, ?_⟩
  simp [GoMap.get]

/-- Witness of C1 at the operator's own deployment. -/
theorem NewDeployment_identity_propagation_witness :
    ("mrm-operator" ≠ "" ∧ "openshift-machine-api" ≠ "")
      ∧ ∃ d c, NewDeployment "kubevirt.io" "mrm-operator" "openshift-machine-api"
            "quay.io/kubevirt" "v1.0.0" PullAlways "2" = some d
          ∧ d.Spec.Template.Spec.Containers = [c]
          ∧ d.ObjectMeta.Name = "mrm-operator"
          ∧ d.ObjectMeta.Namespace = "openshift-machine-api"
          ∧ GoMap.get d.ObjectMeta.Labels "kubevirt.io" = some "mrm-operator"
          ∧ GoMap.get d.Spec.Template.ObjectMeta.Labels "kubevirt.io" = some "mrm-operator"
          ∧ d.Spec.Template.Spec.ServiceAccountName = "mrm-operator"
          ∧ c.Name = "mrm-operator"
          ∧ c.Command = ["/usr/bin/" ++ "mrm-operator"] :=
  ⟨⟨by decide, by decide⟩,
    NewDeployment_identity_propagation "kubevirt.io" "mrm-operator" "openshift-machine-api"
      "quay.io/kubevirt" "v1.0.0" PullAlways "2" (by decide) (by decide)⟩

/-- C2, selector binding: for every input, also with an empty `name`, the
selector's `MatchLabels` is the one-entry map `LabelKubeVirt -> name`, equal to
the pod template's labels and to the Deployment's own labels, and every pair
the selector requires is found, by lookup, in the labels of the template. -/
theorem NewDeployment_selector_binding (LabelKubeVirt name ns imageRepository imageTag : String)
    (pullPolicy : PullPolicy) (verbosity : String) :
    ∃ d sel, NewDeployment LabelKubeVirt name ns imageRepository imageTag pullPolicy verbosity = some d
      ∧ d.Spec.Selector = some sel
      ∧ sel.MatchLabels = [(LabelKubeVirt, name)]
      ∧ sel.MatchLabels = d.Spec.Template.ObjectMeta.Labels
      ∧ sel.MatchLabels = d.ObjectMeta.Labels
      ∧ sel.MatchLabels.length = 1
      ∧ sel.MatchLabels.all
          (fun kv => decide (GoMap.get d.Spec.Template.ObjectMeta.Labels kv.1 = some kv.2)) = true := by
  refine ⟨_, _, NewDeployment_eq _ _ _ _ _ _ _, rfl, ?_⟩
  simp [GoMap.get]

/-- C3, image formatting: for all strings, `getImage name repository tag` is
`repository ++ "/" ++ name ++ ":" ++ tag`, and the image of the single
container built by `newContainers` and by `NewDeployment` is that string. -/
theorem getImage_literal_concatenation (LabelKubeVirt name ns imageRepository imageTag : String)
    (pullPolicy : PullPolicy) (verbosity : String) :
    getImage name imageRepository imageTag = imageRepository ++ "/" ++ name ++ ":" ++ imageTag
      ∧ (∃ c, newContainers name ns imageRepository imageTag pullPolicy verbosity = some [c]
          ∧ c.Image = imageRepository ++ "/" ++ name ++ ":" ++ imageTag)
      ∧ ∃ d c, NewDeployment LabelKubeVirt name ns imageRepository imageTag pullPolicy verbosity
            = some d
          ∧ d.Spec.Template.Spec.Containers = [c]
          ∧ c.Image = imageRepository ++ "/" ++ name ++ ":" ++ imageTag :=
  ⟨Sprintf_image _ _ _, ⟨_, newContainers_eq _ _ _ _ _ _, rfl⟩,
    ⟨_, _, NewDeployment_eq _ _ _ _ _ _ _, rfl, rfl⟩⟩

/-! ## Launch arguments and cardinalities -/

/-- C4, launch arguments: for every input the container's `Args` is the list
`["--logtostderr=true", "--v=" ++ verbosity, "--namespace=" ++ namespace]` in
this order, and the namespace in the third argument is the Deployment's
object namespace. -/
theorem NewDeployment_launch_arguments (LabelKubeVirt name ns imageRepository imageTag : String)
    (pullPolicy : PullPolicy) (verbosity : String) :
    ∃ d c, NewDeployment LabelKubeVirt name ns imageRepository imageTag pullPolicy verbosity = some d
      ∧ d.Spec.Template.Spec.Containers = [c]
      ∧ c.Args = ["--logtostderr=true", "--v=" ++ verbosity, "--namespace=" ++ ns]
      ∧ c.Args = ["--logtostderr=true", "--v=" ++ verbosity,
          "--namespace=" ++ d.ObjectMeta.Namespace] :=
  ⟨_, _, NewDeployment_eq _ _ _ _ _ _ _, rfl, rfl, rfl⟩

/-- C5, fixed cardinalities: for every input the manifest has one container,
four tolerations, three launch arguments, a one-element command and a replica
count that is present and equal to 1. -/
theorem NewDeployment_fixed_cardinalities (LabelKubeVirt name ns imageRepository imageTag : String)
    (pullPolicy : PullPolicy) (verbosity : String) :
    ∃ d c, NewDeployment LabelKubeVirt name ns imageRepository imageTag pullPolicy verbosity = some d
      ∧ d.Spec.Template.Spec.Containers = [c]
      ∧ d.Spec.Template.Spec.Containers.length = 1
      ∧ d.Spec.Template.Spec.Tolerations.length = 4
      ∧ c.Args.length = 3
      ∧ c.Command.length = 1
      ∧ d.Spec.Replicas = some 1 :=
  ⟨_, _, NewDeployment_eq _ _ _ _ _ _ _, rfl, rfl, rfl, rfl, rfl, rfl⟩

/-! ## Tolerations -/

/-- C6, scheduling tolerations: for every input the toleration list starts
with the master toleration (key `node-role.kubernetes.io/master`, effect
`NoSchedule`, no `TolerationSeconds`) followed by the critical-add-on
toleration (key `CriticalAddonsOnly`, operator `Exists`, empty effect, no
`TolerationSeconds`). -/
theorem NewDeployment_scheduling_tolerations (LabelKubeVirt name ns imageRepository imageTag : String)
    (pullPolicy : PullPolicy) (verbosity : String) :
    ∃ d t1 t2 rest,
      NewDeployment LabelKubeVirt name ns imageRepository imageTag pullPolicy verbosity = some d
      ∧ d.Spec.Template.Spec.Tolerations = t1 :: t2 :: rest
      ∧ t1.Key = "node-role.kubernetes.io/master"
      ∧ t1.Effect = TaintEffectNoSchedule
      ∧ t1.Effect = "NoSchedule"
      ∧ t1.TolerationSeconds = none
      ∧ t2.Key = "CriticalAddonsOnly"
      ∧ t2.Operator = TolerationOpExists
      ∧ t2.Operator = "Exists"
      ∧ t2.Effect = ""
      ∧ t2.TolerationSeconds = none :=
  ⟨_, _, _, _, NewDeployment_eq _ _ _ _ _ _ _, rfl, rfl, rfl, rfl, rfl, rfl, rfl, rfl, rfl, rfl⟩

/-- C7, eviction tolerations: for every input the third and fourth
tolerations have keys `node.kubernetes.io/not-ready` and
`node.kubernetes.io/unreachable`, each with effect `NoExecute`, operator
`Exists` and `TolerationSeconds` present and equal to 120, and the
tolerations of the list that carry a `TolerationSeconds` are these two. -/
theorem NewDeployment_eviction_tolerations (LabelKubeVirt name ns imageRepository imageTag : String)
    (pullPolicy : PullPolicy) (verbosity : String) :
    ∃ d t1 t2 t3 t4,
      NewDeployment LabelKubeVirt name ns imageRepository imageTag pullPolicy verbosity = some d
      ∧ d.Spec.Template.Spec.Tolerations = [t1, t2, t3, t4]
      ∧ t3.Key = "node.kubernetes.io/not-ready"
      ∧ t4.Key = "node.kubernetes.io/unreachable"
      ∧ t3.Effect = TaintEffectNoExecute ∧ t4.Effect = TaintEffectNoExecute
      ∧ t3.Effect = "NoExecute" ∧ t4.Effect = "NoExecute"
      ∧ t3.Operator = TolerationOpExists ∧ t4.Operator = TolerationOpExists
      ∧ t3.Operator = "Exists" ∧ t4.Operator = "Exists"
      ∧ t3.TolerationSeconds = some 120 ∧ t4.TolerationSeconds = some 120
      ∧ t1.TolerationSeconds = none ∧ t2.TolerationSeconds = none
      ∧ d.Spec.Template.Spec.Tolerations.filter (fun t => t.TolerationSeconds.isSome) = [t3, t4] :=
  ⟨_, _, _, _, _, NewDeployment_eq _ _ _ _ _ _ _, rfl, rfl, rfl, rfl, rfl, rfl, rfl, rfl, rfl, rfl,
    rfl, rfl, rfl, rfl, rfl, rfl⟩

/-! ## Resources, pull policy and totality -/

/-- C8, constant resource budget: there are two fixed quantities, the one
written `20Mi` (20 * 2 ^ 20 = 20971520 units, exactly) and the one written
`10m` (10 thousandths, one hundredth of a unit, exactly), such that for every
input the container's `Requests` map has two entries, `memory` bound to the
first and `cpu` bound to the second. -/
theorem NewDeployment_resource_budget :
    ∃ memory cpu : Quantity,
      MustParse "20Mi" = some memory ∧ MustParse "10m" = some cpu
      ∧ memory.scale = 0 ∧ memory.Value = 20971520 ∧ memory.Value = 20 * 2 ^ 20
      ∧ cpu.value = 10 ∧ cpu.scale = -3 ∧ cpu.MilliValue = 10 ∧ cpu.ScaledValue (-2) = 1
      ∧ ∀ (LabelKubeVirt name ns imageRepository imageTag : String) (pullPolicy : PullPolicy)
          (verbosity : String),
          ∃ d c,
            NewDeployment LabelKubeVirt name ns imageRepository imageTag pullPolicy verbosity
              = some d
            ∧ d.Spec.Template.Spec.Containers = [c]
            ∧ c.Resources.Requests.length = 2
            ∧ GoMap.get c.Resources.Requests ResourceMemory = some memory
            ∧ GoMap.get c.Resources.Requests ResourceCPU = some cpu := by
  refine ⟨_, _, MustParse_memory, MustParse_cpu, by decide, by decide, by decide, by decide,
    by decide, by decide, by decide, ?_⟩
  intro LabelKubeVirt name ns imageRepository imageTag pullPolicy verbosity
  refine ⟨_, _, NewDeployment_eq _ _ _ _ _ _ _, rfl, rfl, ?_, ?_⟩
  · show GoMap.get [("memory", _), ("cpu", _)] "memory" = _
    simp [GoMap.get]
  · show GoMap.get [("memory", _), ("cpu", _)] "cpu" = _
    simp [GoMap.get]

/-- C9, pull-policy passthrough: for every pull policy, a named one or any
other string of the type, and every other input, the container's
`ImagePullPolicy` is the pull policy given. -/
theorem NewDeployment_pull_policy_passthrough
    (LabelKubeVirt name ns imageRepository imageTag : String) (pullPolicy : PullPolicy)
    (verbosity : String) :
    ∃ d c, NewDeployment LabelKubeVirt name ns imageRepository imageTag pullPolicy verbosity = some d
      ∧ d.Spec.Template.Spec.Containers = [c]
      ∧ c.ImagePullPolicy = pullPolicy :=
  ⟨_, _, NewDeployment_eq _ _ _ _ _ _ _, rfl, rfl⟩

/-- C10, totality and empty-input tolerance: both quantity literals parse, so
`NewDeployment` returns a manifest for every input; with an empty `name` the
object name, the label value, the selector value and the service-account name
are empty and the command is `["/usr/bin/"]`; with `name`, repository and tag
all empty the image is `"/:"`. -/
theorem NewDeployment_total :
    (MustParse "20Mi").isSome = true ∧ (MustParse "10m").isSome = true
      ∧ (∀ (LabelKubeVirt name ns imageRepository imageTag : String) (pullPolicy : PullPolicy)
          (verbosity : String),
          ∃ d, NewDeployment LabelKubeVirt name ns imageRepository imageTag pullPolicy verbosity
            = some d)
      ∧ (∀ (LabelKubeVirt ns imageRepository imageTag : String) (pullPolicy : PullPolicy)
          (verbosity : String),
          ∃ d sel c,
            NewDeployment LabelKubeVirt "" ns imageRepository imageTag pullPolicy verbosity = some d
            ∧ d.Spec.Selector = some sel
            ∧ d.Spec.Template.Spec.Containers = [c]
            ∧ d.ObjectMeta.Name = ""
            ∧ GoMap.get d.ObjectMeta.Labels LabelKubeVirt = some ""
            ∧ GoMap.get d.Spec.Template.ObjectMeta.Labels LabelKubeVirt = some ""
            ∧ GoMap.get sel.MatchLabels LabelKubeVirt = some ""
            ∧ d.Spec.Template.Spec.ServiceAccountName = ""
            ∧ c.Name = ""
            ∧ c.Command = ["/usr/bin/"])
      ∧ ∀ (LabelKubeVirt ns : String) (pullPolicy : PullPolicy) (verbosity : String),
          ∃ d c, NewDeployment LabelKubeVirt "" ns "" "" pullPolicy verbosity = some d
            ∧ d.Spec.Template.Spec.Containers = [c]
            ∧ c.Image = "/:" := by
  refine ⟨by decide, by decide, ?_, ?_, ?_⟩
  · intro LabelKubeVirt name ns imageRepository imageTag pullPolicy verbosity
    exact ⟨_, NewDeployment_eq _ _ _ _ _ _ _⟩
  · intro LabelKubeVirt ns imageRepository imageTag pullPolicy verbosity
    refine ⟨_, _, _, NewDeployment_eq _ _ _ _ _ _ _, rfl, rfl, ?_⟩
    simp [GoMap.get]
  · intro LabelKubeVirt ns pullPolicy verbosity
    refine ⟨_, _, NewDeployment_eq _ _ _ _ _ _ _, rfl, ?_⟩
    show "" ++ "/" ++ "" ++ ":" ++ "" = "/:"
    decide

/-! ## The operator's own deployment, pod policy and type metadata -/

/-- C11, end-to-end example: `NewDeployment("mrm-operator",
"openshift-machine-api", "quay.io/kubevirt", "v1.0.0", PullAlways, "2")`
returns a manifest with image `quay.io/kubevirt/mrm-operator:v1.0.0`, command
`["/usr/bin/mrm-operator"]`, the three arguments `--logtostderr=true`, `--v=2`,
`--namespace=openshift-machine-api`, object name `mrm-operator`, object
namespace `openshift-machine-api`, one replica, pull policy `Always` and the
four fixed tolerations. -/
theorem NewDeployment_mrm_operator_example (LabelKubeVirt : String) :
    ∃ d c, NewDeployment LabelKubeVirt "mrm-operator" "openshift-machine-api" "quay.io/kubevirt"
          "v1.0.0" PullAlways "2" = some d
      ∧ d.Spec.Template.Spec.Containers = [c]
      ∧ c.Image = "quay.io/kubevirt/mrm-operator:v1.0.0"
      ∧ c.Command = ["/usr/bin/mrm-operator"]
      ∧ c.Args = ["--logtostderr=true", "--v=2", "--namespace=openshift-machine-api"]
      ∧ d.ObjectMeta.Name = "mrm-operator"
      ∧ d.ObjectMeta.Namespace = "openshift-machine-api"
      ∧ d.Spec.Replicas = some 1
      ∧ c.ImagePullPolicy = "Always"
      ∧ d.Spec.Template.Spec.Tolerations =
          [ { Key := "node-role.kubernetes.io/master", Effect := "NoSchedule" },
            { Key := "CriticalAddonsOnly", Operator := "Exists" },
            { Key := "node.kubernetes.io/not-ready", Operator := "Exists", Effect := "NoExecute",
              TolerationSeconds := some 120 },
            { Key := "node.kubernetes.io/unreachable", Operator := "Exists",
              Effect := "NoExecute", TolerationSeconds := some 120 } ] := by
  refine ⟨_, _, NewDeployment_eq _ _ _ _ _ _ _, rfl, ?_, ?_, ?_, rfl, rfl, rfl, ?_, rfl⟩
  · show "quay.io/kubevirt" ++ "/" ++ "mrm-operator" ++ ":" ++ "v1.0.0" = _
    decide
  · show ["/usr/bin/" ++ "mrm-operator"] = _
    decide
  · show ["--logtostderr=true", "--v=" ++ "2", "--namespace=" ++ "openshift-machine-api"] = _
    decide
  · show PullAlways = "Always"
    decide

/-- C12, pod-level policy: for every input the pod template's node selector
is the one-entry map `node-role.kubernetes.io/master -> ""`, its security
context is present with `RunAsNonRoot` present and true, and its
service-account name is `name`. -/
theorem NewDeployment_pod_level_policy (LabelKubeVirt name ns imageRepository imageTag : String)
    (pullPolicy : PullPolicy) (verbosity : String) :
    ∃ d sc, NewDeployment LabelKubeVirt name ns imageRepository imageTag pullPolicy verbosity = some d
      ∧ d.Spec.Template.Spec.NodeSelector = [("node-role.kubernetes.io/master", "")]
      ∧ d.Spec.Template.Spec.NodeSelector.length = 1
      ∧ GoMap.get d.Spec.Template.Spec.NodeSelector "node-role.kubernetes.io/master" = some ""
      ∧ d.Spec.Template.Spec.SecurityContext = some sc
      ∧ sc.RunAsNonRoot = some true
      ∧ d.Spec.Template.Spec.ServiceAccountName = name := by
  refine ⟨_, _, NewDeployment_eq _ _ _ _ _ _ _, rfl, rfl, ?_, rfl, rfl, rfl⟩
  show GoMap.get [("node-role.kubernetes.io/master", "")] "node-role.kubernetes.io/master" = _
  simp [GoMap.get]

/-- C13, API type metadata: for every input the manifest has API version
`apps/v1` and kind `Deployment`. -/
theorem NewDeployment_type_meta (LabelKubeVirt name ns imageRepository imageTag : String)
    (pullPolicy : PullPolicy) (verbosity : String) :
    ∃ d, NewDeployment LabelKubeVirt name ns imageRepository imageTag pullPolicy verbosity = some d
      ∧ d.TypeMeta.APIVersion = "apps/v1"
      ∧ d.TypeMeta.Kind = "Deployment" :=
  ⟨_, NewDeployment_eq _ _ _ _ _ _ _, rfl, rfl⟩

/-! ## Determinism, composition and frame -/

/-- C14, determinism: two invocations of `NewDeployment` on identical inputs
both return, and return the same manifest, and that manifest is the record
written out below, every field of which is a literal or an expression in the
six arguments and the label key; the package constant
`namespaceOpenshiftMachineAPI` occurs in none of them, so the manifest carries
it as object namespace, or as the value of `--namespace=`, only when it is the
namespace argument itself. -/
theorem NewDeployment_deterministic (LabelKubeVirt : String)
    (name ns imageRepository imageTag : String) (pullPolicy : PullPolicy) (verbosity : String)
    (name2 ns2 imageRepository2 imageTag2 : String) (pullPolicy2 : PullPolicy)
    (verbosity2 : String)
    (hname : name2 = name) (hns : ns2 = ns) (hrepo : imageRepository2 = imageRepository)
    (htag : imageTag2 = imageTag) (hpull : pullPolicy2 = pullPolicy)
    (hverb : verbosity2 = verbosity) :
    ∃ d,
      NewDeployment LabelKubeVirt name ns imageRepository imageTag pullPolicy verbosity = some d
      ∧ NewDeployment LabelKubeVirt name2 ns2 imageRepository2 imageTag2 pullPolicy2 verbosity2
          = some d
      ∧ d =
          { TypeMeta := { APIVersion := "apps/v1", Kind := "Deployment" },
            ObjectMeta := { Name := name, Namespace := ns, Labels := [(LabelKubeVirt, name)] },
            Spec :=
              { Replicas := some 1,
                Selector := some { MatchLabels := [(LabelKubeVirt, name)] },
                Template :=
                  { ObjectMeta := { Labels := [(LabelKubeVirt, name)] },
                    Spec :=
                      { Containers :=
                          [ { Name := name,
                              Image := imageRepository ++ "/" ++ name ++ ":" ++ imageTag,
                              Command := ["/usr/bin/" ++ name],
                              Args :=
                                ["--logtostderr=true", "--v=" ++ verbosity, "--namespace=" ++ ns],
                              Resources :=
                                { Requests :=
                                    [ ("memory",
                                        { value := 20971520, scale := 0, Format := Format.BinarySI }),
                                      ("cpu",
                                        { value := 10, scale := -3, Format := Format.DecimalSI }) ] },
                              ImagePullPolicy := pullPolicy } ],
                        NodeSelector := [("node-role.kubernetes.io/master", "")],
                        SecurityContext := some { RunAsNonRoot := some true },
                        ServiceAccountName := name,
                        Tolerations :=
                          [ { Key := "node-role.kubernetes.io/master", Effect := "NoSchedule" },
                            { Key := "CriticalAddonsOnly", Operator := "Exists" },
                            { Key := "node.kubernetes.io/not-ready", Operator := "Exists",
                              Effect := "NoExecute", TolerationSeconds := some 120 },
                            { Key := "node.kubernetes.io/unreachable", Operator := "Exists",
                              Effect := "NoExecute", TolerationSeconds := some 120 } ] } } } }
      ∧ (d.ObjectMeta.Namespace = namespaceOpenshiftMachineAPI
          ↔ ns = namespaceOpenshiftMachineAPI)
      ∧ (d.Spec.Template.Spec.Containers.map (fun c => c.Args)
            = [["--logtostderr=true", "--v=" ++ verbosity,
                "--namespace=" ++ namespaceOpenshiftMachineAPI]]
          ↔ ns = namespaceOpenshiftMachineAPI) := by
  subst hname hns hrepo htag hpull hverb
  refine ⟨_, NewDeployment_eq _ _ _ _ _ _ _, NewDeployment_eq _ _ _ _ _ _ _, rfl, Iff.rfl, ?_⟩
  show [["--logtostderr=true", "--v=" ++ verbosity2, "--namespace=" ++ ns2]]
      = [["--logtostderr=true", "--v=" ++ verbosity2,
          "--namespace=" ++ namespaceOpenshiftMachineAPI]]
    ↔ ns2 = namespaceOpenshiftMachineAPI
  simp only [List.cons.injEq, and_true, true_and]
  exact String_append_left_cancel _ _ _

/-- Witness of C14: two invocations for the operator's own deployment, in a
namespace other than `namespaceOpenshiftMachineAPI`. -/
theorem NewDeployment_deterministic_witness :
    ∃ d,
      NewDeployment "kubevirt.io" "mrm-operator" "kubevirt" "quay.io/kubevirt" "v1.0.0"
          PullAlways "2" = some d
      ∧ NewDeployment "kubevirt.io" "mrm-operator" "kubevirt" "quay.io/kubevirt" "v1.0.0"
          PullAlways "2" = some d
      ∧ d =
          { TypeMeta := { APIVersion := "apps/v1", Kind := "Deployment" },
            ObjectMeta := { Name := "mrm-operator", Namespace := "kubevirt", Labels := [("kubevirt.io", "mrm-operator")] },
            Spec :=
              { Replicas := some 1,
                Selector := some { MatchLabels := [("kubevirt.io", "mrm-operator")] },
                Template :=
                  { ObjectMeta := { Labels := [("kubevirt.io", "mrm-operator")] },
                    Spec :=
                      { Containers :=
                          [ { Name := "mrm-operator",
                              Image := "quay.io/kubevirt" ++ "/" ++ "mrm-operator" ++ ":" ++ "v1.0.0",
                              Command := ["/usr/bin/" ++ "mrm-operator"],
                              Args :=
                                ["--logtostderr=true", "--v=" ++ "2", "--namespace=" ++ "kubevirt"],
                              Resources :=
                                { Requests :=
                                    [ ("memory",
                                        { value := 20971520, scale := 0, Format := Format.BinarySI }),
                                      ("cpu",
                                        { value := 10, scale := -3, Format := Format.DecimalSI }) ] },
                              ImagePullPolicy := PullAlways } ],
                        NodeSelector := [("node-role.kubernetes.io/master", "")],
                        SecurityContext := some { RunAsNonRoot := some true },
                        ServiceAccountName := "mrm-operator",
                        Tolerations :=
                          [ { Key := "node-role.kubernetes.io/master", Effect := "NoSchedule" },
                            { Key := "CriticalAddonsOnly", Operator := "Exists" },
                            { Key := "node.kubernetes.io/not-ready", Operator := "Exists",
                              Effect := "NoExecute", TolerationSeconds := some 120 },
                            { Key := "node.kubernetes.io/unreachable", Operator := "Exists",
                              Effect := "NoExecute", TolerationSeconds := some 120 } ] } } } }
      ∧ (d.ObjectMeta.Namespace = namespaceOpenshiftMachineAPI
          ↔ "kubevirt" = namespaceOpenshiftMachineAPI)
      ∧ (d.Spec.Template.Spec.Containers.map (fun c => c.Args)
            = [["--logtostderr=true", "--v=" ++ "2",
                "--namespace=" ++ namespaceOpenshiftMachineAPI]]
          ↔ "kubevirt" = namespaceOpenshiftMachineAPI) :=
  NewDeployment_deterministic "kubevirt.io" "mrm-operator" "kubevirt" "quay.io/kubevirt" "v1.0.0"
    PullAlways "2" "mrm-operator" "kubevirt" "quay.io/kubevirt" "v1.0.0" PullAlways "2"
    rfl rfl rfl rfl rfl rfl

/-- C15, stage composition: for every input the template of the manifest is
the value `newPodTemplateSpec` returns on the same six arguments, the
containers of that template are the value `newContainers` returns on the same
six arguments, and the image of the single container is
`getImage name repository tag`. -/
theorem NewDeployment_stage_composition (LabelKubeVirt name ns imageRepository imageTag : String)
    (pullPolicy : PullPolicy) (verbosity : String) :
    ∃ d template containers c,
      NewDeployment LabelKubeVirt name ns imageRepository imageTag pullPolicy verbosity = some d
      ∧ newPodTemplateSpec LabelKubeVirt name ns imageRepository imageTag pullPolicy verbosity
          = some template
      ∧ newContainers name ns imageRepository imageTag pullPolicy verbosity = some containers
      ∧ d.Spec.Template = template
      ∧ template.Spec.Containers = containers
      ∧ containers = [c]
      ∧ c.Image = getImage name imageRepository imageTag :=
  ⟨_, _, _, _, NewDeployment_eq _ _ _ _ _ _ _, newPodTemplateSpec_eq _ _ _ _ _ _ _,
    newContainers_eq _ _ _ _ _ _, rfl, rfl, rfl, (Sprintf_image _ _ _).symm⟩

/-- C16, no extra fields: for every input the manifest is the record that
sets the enumerated fields and leaves every other field of the model at its
zero value; in particular the container has no resource limits, environment,
ports or volume mounts, no toleration has a value, the first toleration has no
operator, the pod template's metadata has no name and no namespace, and the
Deployment's metadata carries one label. -/
theorem NewDeployment_no_extra_fields (LabelKubeVirt name ns imageRepository imageTag : String)
    (pullPolicy : PullPolicy) (verbosity : String) :
    ∃ d c memory cpu t1 rest,
      NewDeployment LabelKubeVirt name ns imageRepository imageTag pullPolicy verbosity = some d
      ∧ MustParse "20Mi" = some memory ∧ MustParse "10m" = some cpu
      ∧ c = { Name := name,
              Image := getImage name imageRepository imageTag,
              Command := ["/usr/bin/" ++ name],
              Args := ["--logtostderr=true", "--v=" ++ verbosity, "--namespace=" ++ ns],
              Resources := { Requests := [(ResourceMemory, memory), (ResourceCPU, cpu)] },
              ImagePullPolicy := pullPolicy }
      ∧ d = { TypeMeta := { APIVersion := "apps/v1", Kind := "Deployment" },
              ObjectMeta := { Name := name, Namespace := ns, Labels := [(LabelKubeVirt, name)] },
              Spec :=
                { Replicas := some 1,
                  Selector := some { MatchLabels := [(LabelKubeVirt, name)] },
                  Template :=
                    { ObjectMeta := { Labels := [(LabelKubeVirt, name)] },
                      Spec :=
                        { Containers := [c],
                          NodeSelector := [("node-role.kubernetes.io/master", "")],
                          SecurityContext := some { RunAsNonRoot := some true },
                          ServiceAccountName := name,
                          Tolerations :=
                            [ { Key := "node-role.kubernetes.io/master",
                                Effect := TaintEffectNoSchedule },
                              { Key := "CriticalAddonsOnly", Operator := TolerationOpExists },
                              { Key := "node.kubernetes.io/not-ready",
                                Operator := TolerationOpExists,
                                Effect := TaintEffectNoExecute,
                                TolerationSeconds := some 120 },
                              { Key := "node.kubernetes.io/unreachable",
                                Operator := TolerationOpExists,
                                Effect := TaintEffectNoExecute,
                                TolerationSeconds := some 120 } ] } } } }
      ∧ c.Resources.Limits = []
      ∧ c.Resources.Requests.length = 2
      ∧ c.Env = [] ∧ c.Ports = [] ∧ c.VolumeMounts = []
      ∧ d.Spec.Template.Spec.Tolerations = t1 :: rest
      ∧ d.Spec.Template.Spec.Tolerations.all (fun t => decide (t.Value = "")) = true
      ∧ t1.Operator = ""
      ∧ d.Spec.Template.ObjectMeta.Name = ""
      ∧ d.Spec.Template.ObjectMeta.Namespace = ""
      ∧ d.ObjectMeta.Labels.length = 1 := by
  refine ⟨_, _, _, _, _, _, NewDeployment_eq _ _ _ _ _ _ _, MustParse_memory, MustParse_cpu, rfl,
    ?_, rfl, rfl, rfl, rfl, rfl, rfl, ?_, rfl, rfl, rfl, rfl⟩
  · simp [getImage, Sprintf_image, ResourceMemory, ResourceCPU, TaintEffectNoSchedule,
      TaintEffectNoExecute, TolerationOpExists]
  · simp

/-! ## Input influence, placement and image coordinates -/

/-- C17, input influence: for two inputs with the same `name` and `namespace`
the second manifest is the first one with three places overwritten, the
container's image, its second launch argument and its pull policy; the image
is `getImage name repository tag`, the second argument is `"--v=" ++ verbosity`
and the pull policy is the argument given; and each of repository, tag and
verbosity, varied alone, changes its field. -/
theorem NewDeployment_input_influence (LabelKubeVirt name ns : String)
    (imageRepository1 imageTag1 : String) (pullPolicy1 : PullPolicy) (verbosity1 : String)
    (imageRepository2 imageTag2 : String) (pullPolicy2 : PullPolicy) (verbosity2 : String) :
    ∃ d1 d2 c1 c2 a0 a2,
      NewDeployment LabelKubeVirt name ns imageRepository1 imageTag1 pullPolicy1 verbosity1
        = some d1
      ∧ NewDeployment LabelKubeVirt name ns imageRepository2 imageTag2 pullPolicy2 verbosity2
        = some d2
      ∧ d1.Spec.Template.Spec.Containers = [c1]
      ∧ d2.Spec.Template.Spec.Containers = [c2]
      ∧ c1.Args = [a0, "--v=" ++ verbosity1, a2]
      ∧ c2.Args = [a0, "--v=" ++ verbosity2, a2]
      ∧ c1.Image = getImage name imageRepository1 imageTag1
      ∧ c2.Image = getImage name imageRepository2 imageTag2
      ∧ c1.ImagePullPolicy = pullPolicy1
      ∧ c2.ImagePullPolicy = pullPolicy2
      ∧ d2 = { d1 with
          Spec := { d1.Spec with
            Template := { d1.Spec.Template with
              Spec := { d1.Spec.Template.Spec with
                Containers :=
                  [ { c1 with
                      Image := c2.Image,
                      Args := [a0, "--v=" ++ verbosity2, a2],
                      ImagePullPolicy := c2.ImagePullPolicy } ] } } } }
      ∧ (getImage name imageRepository1 imageTag1 = getImage name imageRepository2 imageTag1
          ↔ imageRepository1 = imageRepository2)
      ∧ (getImage name imageRepository1 imageTag1 = getImage name imageRepository1 imageTag2
          ↔ imageTag1 = imageTag2)
      ∧ ("--v=" ++ verbosity1 = "--v=" ++ verbosity2 ↔ verbosity1 = verbosity2) := by
  refine ⟨_, _, _, _, _, _, NewDeployment_eq _ _ _ _ _ _ _, NewDeployment_eq _ _ _ _ _ _ _, rfl,
    rfl, rfl, rfl, (Sprintf_image _ _ _).symm, (Sprintf_image _ _ _).symm, rfl, rfl, rfl, ?_, ?_,
    String_append_left_cancel _ _ _⟩
  · simp only [getImage, Sprintf_image, String.append_assoc]
    exact String_append_right_cancel _ _ _
  · simp only [getImage, Sprintf_image]
    exact String_append_left_cancel _ _ _

/-- C18, placement consistency: for every input the single key of the node
selector is the key of the first toleration, `node-role.kubernetes.io/master`,
and the toleration list tolerates the master taint with empty value and effect
`NoSchedule`, and the `NoExecute` taints `node.kubernetes.io/not-ready` and
`node.kubernetes.io/unreachable` of any value. -/
theorem NewDeployment_placement_consistency
    (LabelKubeVirt name ns imageRepository imageTag : String) (pullPolicy : PullPolicy)
    (verbosity : String) :
    ∃ d key value t1 rest,
      NewDeployment LabelKubeVirt name ns imageRepository imageTag pullPolicy verbosity = some d
      ∧ d.Spec.Template.Spec.NodeSelector = [(key, value)]
      ∧ d.Spec.Template.Spec.Tolerations = t1 :: rest
      ∧ key = t1.Key
      ∧ key = "node-role.kubernetes.io/master"
      ∧ tolerationsTolerateTaint d.Spec.Template.Spec.Tolerations
          { Key := "node-role.kubernetes.io/master", Value := "", Effect := TaintEffectNoSchedule }
          = true
      ∧ (∀ taintValue : String,
          tolerationsTolerateTaint d.Spec.Template.Spec.Tolerations
            { Key := "node.kubernetes.io/not-ready", Value := taintValue,
              Effect := TaintEffectNoExecute } = true)
      ∧ ∀ taintValue : String,
          tolerationsTolerateTaint d.Spec.Template.Spec.Tolerations
            { Key := "node.kubernetes.io/unreachable", Value := taintValue,
              Effect := TaintEffectNoExecute } = true := by
  refine ⟨_, _, _, _, _, NewDeployment_eq _ _ _ _ _ _ _, rfl, rfl, rfl, rfl, ?_, ?_, ?_⟩
  · simp [tolerationsTolerateTaint, toleratesTaint, TolerationOpEqual, TolerationOpExists,
      TaintEffectNoSchedule]
  · intro taintValue
    simp [tolerationsTolerateTaint, toleratesTaint, TolerationOpEqual, TolerationOpExists,
      TaintEffectNoExecute]
  · intro taintValue
    simp [tolerationsTolerateTaint, toleratesTaint, TolerationOpEqual, TolerationOpExists,
      TaintEffectNoExecute]

/-- C19, image coordinate unambiguity: when both names contain neither `/`
nor `:` and both tags contain no `/`, two image strings are equal exactly when
repository, name and tag are equal; without the condition on the names this
fails: repository `a` with name `b/c` and repository `a/b` with name `c` give
the same image string for every tag. -/
theorem getImage_unambiguous (imageRepository1 name1 imageTag1 : String)
    (imageRepository2 name2 imageTag2 : String)
    (hname1 : '/' ∉ name1.toList ∧ ':' ∉ name1.toList)
    (hname2 : '/' ∉ name2.toList ∧ ':' ∉ name2.toList)
    (htag1 : '/' ∉ imageTag1.toList) (htag2 : '/' ∉ imageTag2.toList) :
    (getImage name1 imageRepository1 imageTag1 = getImage name2 imageRepository2 imageTag2
        ↔ imageRepository1 = imageRepository2 ∧ name1 = name2 ∧ imageTag1 = imageTag2)
      ∧ ∀ tag : String, getImage "b/c" "a" tag = getImage "c" "a/b" tag
          ∧ ("a" : String) ≠ "a/b" ∧ ("b/c" : String) ≠ "c" := by
  refine ⟨⟨?_, ?_⟩, ?_⟩
  · intro h
    simp only [getImage, Sprintf_image] at h
    have hd := congrArg String.data h
    simp only [String.data_append, List.append_assoc] at hd
    have hslash : ∀ (n t : String), '/' ∉ n.toList → '/' ∉ t.toList →
        '/' ∉ n.data ++ (":".data ++ t.data) := by
      intro n t hn ht hm
      rcases List.mem_append.1 hm with hm | hm
      · exact hn hm
      · rcases List.mem_append.1 hm with hm | hm
        · exact absurd hm (by decide)
        · exact ht hm
    have hrepo := split_at_last_separator (s := '/') imageRepository1.data imageRepository2.data
      (name1.data ++ (":".data ++ imageTag1.data)) (name2.data ++ (":".data ++ imageTag2.data))
      (hslash name1 imageTag1 hname1.1 htag1) (hslash name2 imageTag2 hname2.1 htag2) hd
    have hrest := split_at_first_separator (s := ':') name1.data name2.data imageTag1.data
      imageTag2.data hname1.2 hname2.2 hrepo.2
    exact ⟨String.ext hrepo.1, String.ext hrest.1, String.ext hrest.2⟩
  · rintro ⟨rfl, rfl, rfl⟩
    rfl
  · intro tag
    refine ⟨?_, by decide, by decide⟩
    simp only [getImage, Sprintf_image]
    apply String.ext
    simp

/-- Witness of C19: two tags of the operator's image. -/
theorem getImage_unambiguous_witness :
    (getImage "mrm-operator" "quay.io/kubevirt" "v1.0.0"
        = getImage "mrm-operator" "quay.io/kubevirt" "v1.0.1"
        ↔ ("quay.io/kubevirt" : String) = "quay.io/kubevirt"
          ∧ ("mrm-operator" : String) = "mrm-operator" ∧ ("v1.0.0" : String) = "v1.0.1")
      ∧ ∀ tag : String, getImage "b/c" "a" tag = getImage "c" "a/b" tag
          ∧ ("a" : String) ≠ "a/b" ∧ ("b/c" : String) ≠ "c" :=
  getImage_unambiguous "quay.io/kubevirt" "mrm-operator" "v1.0.0" "quay.io/kubevirt"
    "mrm-operator" "v1.0.1" (by decide) (by decide) (by decide) (by decide)

end Components
